import Mathlib

/-!
Verification of the observable behaviour of `examples/tracing/main.py` from
envoyproxy/ai-gateway: a CLI runner that initializes telemetry, resolves a
prompt, a model name and an MCP (tool-server) URL, optionally connects to the
tool server to fetch tools, and executes one agent run.

The script is shallowly embedded as a trace semantics: every externally
observable action (telemetry initialization, a line printed to stdout, the
tool-server connection open and release, the tool-listing request, the agent
run) is an `Event`.  Outcomes of calls into external libraries (the MCP
connection attempt, `server.list_tools()`, `Runner.run`) are supplied by an
environment record `Env`, so every exit path of the script is covered by
quantifying over environments.  Python `None` values are embedded as
`Option.none`; the `if not mcp_url` falsiness test covers both `None` and the
empty string, exactly as in the source.
-/

namespace Tracing

/-- An error raised by an external library call (connection failure, tool
listing failure, agent/model runtime failure, unreadable prompt source). -/
structure Err where
  msg : String
deriving DecidableEq, Repr

/-- A tool descriptor as returned by `server.list_tools()`; opaque to the
script, which passes it through to the adapter unmodified. -/
structure MCPTool where
  name : String
deriving DecidableEq, Repr

/-- The runtime's callable-tool representation produced by
`MCPUtil().to_function_tool(tool, server, False)`: the descriptor, the
originating server connection (identified by its URL), and the
strict-JSON-schema flag (the literal `False` third argument). -/
structure FunctionTool where
  tool : MCPTool
  serverUrl : String
  strictJsonSchema : Bool
deriving DecidableEq, Repr

/-- `MCPUtil().to_function_tool(tool, server, False)` from
`main.py` line 69: binds the descriptor to the originating connection in
non-strict schema mode. -/
def toFunctionTool (tool : MCPTool) (serverUrl : String) : FunctionTool :=
  { tool := tool, serverUrl := serverUrl, strictJsonSchema := false }

/-- Outcomes of the external library calls the script performs, one field per
awaited call site.  Quantifying over `Env` quantifies over all exit paths. -/
structure Env where
  /-- Outcome of entering `async with MCPServerStreamableHttp(...)`. -/
  connect : Except Err Unit
  /-- Outcome of `await server.list_tools()`. -/
  listToolsResult : Except Err (List MCPTool)
  /-- Outcome of `await Runner.run(...)`; on success, `result.final_output`. -/
  agentResult : Except Err String
deriving Repr

/-- Observable events of one process run, in program order. -/
inductive Event where
  /-- `auto_instrumentation.initialize()` at import time. -/
  | initTelemetry : Event
  /-- A line written to standard output. -/
  | print (line : String) : Event
  /-- Opening the streamable-HTTP connection to the MCP server at `url`. -/
  | connect (url : String) : Event
  /-- Releasing the MCP server connection (the `async with` exit). -/
  | release (url : String) : Event
  /-- The `server.list_tools()` request. -/
  | listTools (url : String) : Event
  /-- `Runner.run` invoked on agent "Assistant" with the given model binding,
  prompt, tool set and workflow name. -/
  | runnerRun (model : Option String) (prompt : String)
      (tools : List FunctionTool) (workflowName : String) : Event
deriving DecidableEq, Repr

/-- `run_agent(prompt, model_name, tools)` from `main.py` lines 50-58:
builds the model and agent, awaits `Runner.run` tagged with workflow name
"envoy-ai-gateway", and on success prints `result.final_output`.  The model
name is forwarded unvalidated (a Python `None` stays `none`). -/
def run_agent (env : Env) (prompt : String) (model_name : Option String)
    (tools : List FunctionTool) : List Event × Except Err Unit :=
  match env.agentResult with
  | .ok finalOutput =>
      ([Event.runnerRun model_name prompt tools "envoy-ai-gateway",
        Event.print finalOutput], .ok ())
  | .error e =>
      ([Event.runnerRun model_name prompt tools "envoy-ai-gateway"], .error e)

/-- `main(prompt, model_name, mcp_url)` from `main.py` lines 61-70.
`if not mcp_url` (false for `None` and for the empty string) short-circuits
to an agent run with zero tools.  Otherwise the `async with` block opens the
connection; if opening fails the body never runs and no release happens, and
once opened the release event is appended after the body on every outcome of
the body (normal return, exception, or cancellation surfacing as an
exception), which is the semantics of `async with`. -/
def main (env : Env) (prompt : String) (model_name : Option String)
    (mcp_url : Option String) : List Event × Except Err Unit :=
  match mcp_url with
  | none => run_agent env prompt model_name []
  | some url =>
    if url = "" then
      run_agent env prompt model_name []
    else
      match env.connect with
      | .error e => ([Event.connect url], .error e)
      | .ok () =>
        let body : List Event × Except Err Unit :=
          match env.listToolsResult with
          | .error e => ([Event.listTools url], .error e)
          | .ok mcpTools =>
            let tools := mcpTools.map (fun t => toFunctionTool t url)
            let inner := run_agent env prompt model_name tools
            (Event.listTools url :: inner.1, inner.2)
        (Event.connect url :: body.1 ++ [Event.release url], body.2)

/-- Command-line arguments after `argparse` handling: `--model` and
`--mcp-url` are optional strings (absent flags fall back to the parser
defaults, which come from the environment). -/
structure Args where
  modelFlag : Option String
  mcpUrlFlag : Option String
deriving DecidableEq, Repr

/-- Process-level environment: the `CHAT_MODEL` and `MCP_URL` environment
variables (`os.getenv` yields `none` when unset), the two stages of the
prompt-source pipeline — opening it (`argparse.FileType('r')`, performed
during `parse_args`) and then reading it (`args.prompt.read()` at
`main.py` line 79) — and the outcomes of the external calls made during the
run.  The two stages fail differently: an open failure is reported by
`argparse` itself, while a read failure (e.g. a `UnicodeDecodeError` on a
non-UTF-8 file, or an I/O error on stdin) is an ordinary uncaught
exception. -/
structure ProcEnv where
  chatModelVar : Option String
  mcpUrlVar : Option String
  /-- Outcome of `argparse.FileType('r')` opening the prompt source during
  `parse_args`. -/
  openSource : Except Err Unit
  /-- Outcome of `args.prompt.read()`, only reached when the open
  succeeded. -/
  readPrompt : Except Err String
  ext : Env
deriving Repr

/-- The combined prompt-acquisition outcome: the prompt text when both the
`FileType` open and the `.read()` succeed, the first failure otherwise. -/
def ProcEnv.openPrompt (penv : ProcEnv) : Except Err String :=
  match penv.openSource with
  | .error e => .error e
  | .ok _ => penv.readPrompt

/-- `argparse` resolution of an optional flag with a computed default:
the explicit flag value if given, else the default
(`default=os.getenv(...)`, itself `none` when the variable is unset). -/
def argDefault (flag dflt : Option String) : Option String :=
  match flag with
  | some v => some v
  | none => dflt

/-- Python f-string rendering of a value that may be `None`:
`f"{x}"` renders `None` as the four characters `None`. -/
def pyFormat : Option String → String
  | none => "None"
  | some s => s

/-- Exit status of `asyncio.run(main(...))` under CPython: 0 when the
coroutine returns normally, 1 when an exception propagates uncaught. -/
def exitOf : Except Err Unit → Nat
  | .ok _ => 0
  | .error _ => 1

/-- The `if __name__ == "__main__"` block, `main.py` lines 73-85, together
with the import-time `auto_instrumentation.initialize()` call (line 33),
which precedes everything else.  `argparse.FileType('r')` opens the prompt
source during `parse_args`; a source that cannot be opened makes `argparse`
call `parser.error`, which exits the process with status 2 before any
diagnostic line is printed.  A failure of `args.prompt.read()` itself
(line 79) is an uncaught exception, exiting with CPython's status 1, still
before any diagnostic line.  Otherwise three diagnostic lines are printed
and `asyncio.run(main(...))` runs; an uncaught exception there exits with
status 1, normal completion with status 0. -/
def process (penv : ProcEnv) (args : Args) : List Event × Nat :=
  match penv.openSource with
  | .error _ => ([Event.initTelemetry], 2)
  | .ok _ =>
    match penv.readPrompt with
    | .error _ => ([Event.initTelemetry], 1)
    | .ok prompt =>
      let model := argDefault args.modelFlag penv.chatModelVar
      let mcpUrl := argDefault args.mcpUrlFlag penv.mcpUrlVar
      let run := main penv.ext prompt model mcpUrl
      (Event.initTelemetry ::
         Event.print ("Prompt: " ++ prompt) ::
         Event.print ("Using model: " ++ pyFormat model) ::
         Event.print ("Using MCP URL: " ++ pyFormat mcpUrl) :: run.1,
       exitOf run.2)

/-- Whether an event is a connection release. -/
def isRelease : Event → Bool
  | Event.release _ => true
  | _ => false

/-- Whether an event is a connection open. -/
def isConnect : Event → Bool
  | Event.connect _ => true
  | _ => false

/-- Whether an event is an agent invocation (`Runner.run`). -/
def isRunnerRun : Event → Bool
  | Event.runnerRun _ _ _ _ => true
  | _ => false

/-- Whether an event is the telemetry initialization. -/
def isInitTelemetry : Event → Bool
  | Event.initTelemetry => true
  | _ => false

/-- Number of events satisfying `f` in a trace. -/
def countBy (f : Event → Bool) (es : List Event) : Nat :=
  (es.filter f).length

/-- Number of connection-release events in a trace. -/
def releaseCount (es : List Event) : Nat := countBy isRelease es

/-- Number of connection-open events in a trace. -/
def connectCount (es : List Event) : Nat := countBy isConnect es

/-- Number of agent invocations in a trace. -/
def agentRuns (es : List Event) : Nat := countBy isRunnerRun es

/-- Number of telemetry-initialization events in a trace. -/
def telemetryCount (es : List Event) : Nat := countBy isInitTelemetry es

theorem countBy_append (f : Event → Bool) (a b : List Event) :
    countBy f (a ++ b) = countBy f a + countBy f b := by
  simp [countBy, List.filter_append]

theorem run_agent_releaseCount (env : Env) (p : String) (m : Option String)
    (ts : List FunctionTool) : releaseCount (run_agent env p m ts).1 = 0 := by
  cases h : env.agentResult <;>
    simp [run_agent, h, releaseCount, countBy, isRelease]

theorem run_agent_connectCount (env : Env) (p : String) (m : Option String)
    (ts : List FunctionTool) : connectCount (run_agent env p m ts).1 = 0 := by
  cases h : env.agentResult <;>
    simp [run_agent, h, connectCount, countBy, isConnect]

theorem run_agent_agentRuns (env : Env) (p : String) (m : Option String)
    (ts : List FunctionTool) : agentRuns (run_agent env p m ts).1 = 1 := by
  cases h : env.agentResult <;>
    simp [run_agent, h, agentRuns, countBy, isRunnerRun]

theorem run_agent_telemetryCount (env : Env) (p : String) (m : Option String)
    (ts : List FunctionTool) : telemetryCount (run_agent env p m ts).1 = 0 := by
  cases h : env.agentResult <;>
    simp [run_agent, h, telemetryCount, countBy, isInitTelemetry]

theorem run_agent_mem_runnerRun (env : Env) (p : String) (m : Option String)
    (ts : List FunctionTool) :
    Event.runnerRun m p ts "envoy-ai-gateway" ∈ (run_agent env p m ts).1 := by
  cases h : env.agentResult <;> simp [run_agent, h]

theorem main_none_eq (env : Env) (p : String) (m : Option String) :
    main env p m none = run_agent env p m [] := rfl

theorem main_emptyUrl_eq (env : Env) (p : String) (m : Option String) :
    main env p m (some "") = run_agent env p m [] := by
  simp [main]

theorem main_telemetryCount (env : Env) (p : String) (m : Option String)
    (u : Option String) : telemetryCount (main env p m u).1 = 0 := by
  match u with
  | none => exact run_agent_telemetryCount env p m []
  | some url =>
    by_cases hurl : url = ""
    · subst hurl
      rw [main_emptyUrl_eq]
      exact run_agent_telemetryCount env p m []
    · cases hconn : env.connect with
      | error e =>
        simp [main, hurl, hconn, telemetryCount, countBy, isInitTelemetry]
      | ok v =>
        cases hl : env.listToolsResult <;> cases hag : env.agentResult <;>
          simp [main, hurl, hconn, hl, hag, run_agent, telemetryCount, countBy,
            isInitTelemetry]

theorem openPrompt_eq_ok (penv : ProcEnv) (p : String)
    (h : penv.openPrompt = .ok p) :
    penv.openSource = .ok () ∧ penv.readPrompt = .ok p := by
  cases hs : penv.openSource with
  | error e => simp [ProcEnv.openPrompt, hs] at h
  | ok u =>
    cases u
    refine ⟨rfl, ?_⟩
    simpa [ProcEnv.openPrompt, hs] using h

/-- Concrete external-call outcomes for witnesses: the connection opens, the
server returns one tool, the agent run succeeds. -/
def happyEnv : Env :=
  { connect := .ok ()
    listToolsResult := .ok [{ name := "get_weather" }]
    agentResult := .ok "final answer" }

/-- C1: whenever the tool-server connection is successfully opened (non-empty
URL, `Env.connect` succeeds), the trace of `main` contains exactly one
connection-release event, on every exit path: the quantification over
`Env.listToolsResult` and `Env.agentResult` covers normal completion, an
exception during tool listing, and an exception during the agent run
(cancellation surfaces in the `async with` body as an exception and is the
same case). -/
theorem released_exactly_once_after_open (env : Env) (p : String)
    (m : Option String) (url : String) (hurl : url ≠ "")
    (hconn : env.connect = .ok ()) :
    releaseCount (main env p m (some url)).1 = 1 := by
  cases hl : env.listToolsResult <;> cases hag : env.agentResult <;>
    simp [main, hurl, hconn, hl, hag, run_agent, releaseCount, countBy, isRelease]

theorem released_exactly_once_after_open_witness :
    releaseCount (main happyEnv "hi" (some "gpt") (some "http://mcp")).1 = 1 :=
  released_exactly_once_after_open happyEnv "hi" (some "gpt") "http://mcp"
    (by decide) rfl

/-- C2: with a non-empty tool-server URL, a successful connection and a
tool listing returning `ts` (N = `ts.length` descriptors), the agent is run
exactly once, with exactly the N adapted tools `ts.map (toFunctionTool · url)`,
and every adapted tool is bound to the originating connection `url` with
`strict_json_schema = false`. -/
theorem agent_runs_with_adapted_tools (env : Env) (p : String)
    (m : Option String) (url : String) (ts : List MCPTool) (hurl : url ≠ "")
    (hconn : env.connect = .ok ()) (hlist : env.listToolsResult = .ok ts) :
    Event.runnerRun m p (ts.map (fun t => toFunctionTool t url))
        "envoy-ai-gateway" ∈ (main env p m (some url)).1
    ∧ (ts.map (fun t => toFunctionTool t url)).length = ts.length
    ∧ agentRuns (main env p m (some url)).1 = 1
    ∧ ∀ ft ∈ ts.map (fun t => toFunctionTool t url),
        ft.serverUrl = url ∧ ft.strictJsonSchema = false := by
  refine ⟨?_, by simp, ?_, ?_⟩
  · cases hag : env.agentResult <;>
      simp [main, hurl, hconn, hlist, run_agent, hag]
  · cases hag : env.agentResult <;>
      simp [main, hurl, hconn, hlist, run_agent, hag, agentRuns, countBy,
        isRunnerRun]
  · intro ft hft
    rw [List.mem_map] at hft
    obtain ⟨t, _, rfl⟩ := hft
    exact ⟨rfl, rfl⟩

theorem agent_runs_with_adapted_tools_witness :
    Event.runnerRun (some "gpt") "hi"
        ([MCPTool.mk "get_weather"].map (fun t => toFunctionTool t "http://mcp"))
        "envoy-ai-gateway" ∈ (main happyEnv "hi" (some "gpt") (some "http://mcp")).1
    ∧ ([MCPTool.mk "get_weather"].map (fun t => toFunctionTool t "http://mcp")).length
        = [MCPTool.mk "get_weather"].length
    ∧ agentRuns (main happyEnv "hi" (some "gpt") (some "http://mcp")).1 = 1
    ∧ ∀ ft ∈ [MCPTool.mk "get_weather"].map (fun t => toFunctionTool t "http://mcp"),
        ft.serverUrl = "http://mcp" ∧ ft.strictJsonSchema = false :=
  agent_runs_with_adapted_tools happyEnv "hi" (some "gpt") "http://mcp"
    [MCPTool.mk "get_weather"] (by decide) rfl rfl

/-- C3: when the resolved tool-server URL is absent (`None`) or the empty
string, the agent is run with the empty tool set and the trace contains no
connection-open event at all. -/
theorem empty_url_zero_tools_no_connection (env : Env) (p : String)
    (m : Option String) (u : Option String) (h : u = none ∨ u = some "") :
    Event.runnerRun m p [] "envoy-ai-gateway" ∈ (main env p m u).1
    ∧ connectCount (main env p m u).1 = 0 := by
  have heq : main env p m u = run_agent env p m [] := by
    rcases h with rfl | rfl
    · exact main_none_eq env p m
    · exact main_emptyUrl_eq env p m
  rw [heq]
  exact ⟨run_agent_mem_runnerRun env p m [], run_agent_connectCount env p m []⟩

theorem empty_url_zero_tools_no_connection_witness :
    Event.runnerRun (some "gpt") "hi" [] "envoy-ai-gateway"
        ∈ (main happyEnv "hi" (some "gpt") none).1
    ∧ connectCount (main happyEnv "hi" (some "gpt") none).1 = 0 :=
  empty_url_zero_tools_no_connection happyEnv "hi" (some "gpt") none (Or.inl rfl)

/-- External-call outcomes where opening the tool-server connection fails. -/
def connFailEnv : Env :=
  { connect := .error { msg := "connection refused" }
    listToolsResult := .ok []
    agentResult := .ok "unused" }

/-- Process environment for a run whose tool-server connection fails. -/
def connFailPenv : ProcEnv :=
  { chatModelVar := some "gpt"
    mcpUrlVar := some "http://mcp"
    openSource := .ok ()
    readPrompt := .ok "hi"
    ext := connFailEnv }

/-- Default command-line arguments: no flags given. -/
def noFlags : Args := { modelFlag := none, mcpUrlFlag := none }

/-- C4: if the resolved tool-server URL is non-empty and opening the
connection fails, the process exits with a non-zero status and the trace
contains no agent invocation at all. -/
theorem connect_failure_terminates_without_agent_run (penv : ProcEnv)
    (args : Args) (p url : String) (e : Err)
    (hp : penv.openPrompt = .ok p)
    (hurl : argDefault args.mcpUrlFlag penv.mcpUrlVar = some url)
    (hne : url ≠ "") (hconn : penv.ext.connect = .error e) :
    (process penv args).2 ≠ 0 ∧ agentRuns (process penv args).1 = 0 := by
  obtain ⟨hs, hr⟩ := openPrompt_eq_ok penv p hp
  simp [process, hs, hr, hurl, main, hne, hconn, exitOf, agentRuns, countBy,
    isRunnerRun]

theorem connect_failure_terminates_without_agent_run_witness :
    (process connFailPenv noFlags).2 ≠ 0
    ∧ agentRuns (process connFailPenv noFlags).1 = 0 :=
  connect_failure_terminates_without_agent_run connFailPenv noFlags "hi"
    "http://mcp" { msg := "connection refused" } rfl rfl (by decide) rfl

/-- C5: in every process run, telemetry initialization happens exactly once
(hence at most once), and it is the very first event of the trace, so it
strictly precedes every print, every tool-server call and every agent/model
call. -/
theorem telemetry_initialized_once_and_first (penv : ProcEnv) (args : Args) :
    (process penv args).1.head? = some Event.initTelemetry
    ∧ telemetryCount (process penv args).1 = 1 := by
  cases hs : penv.openSource with
  | error e =>
    constructor
    · simp [process, hs]
    · simp [process, hs, telemetryCount, countBy, isInitTelemetry]
  | ok u =>
    cases u
    cases hr : penv.readPrompt with
    | error e =>
      constructor
      · simp [process, hs, hr]
      · simp [process, hs, hr, telemetryCount, countBy, isInitTelemetry]
    | ok p =>
      constructor
      · simp [process, hs, hr]
      · have hmain := main_telemetryCount penv.ext p
          (argDefault args.modelFlag penv.chatModelVar)
          (argDefault args.mcpUrlFlag penv.mcpUrlVar)
        simp [telemetryCount, countBy, isInitTelemetry] at hmain
        simp [process, hs, hr, telemetryCount, countBy, isInitTelemetry]
        exact hmain

/-- Process environment for precedence witnesses: `CHAT_MODEL` set,
`MCP_URL` unset, readable prompt. -/
def happyPenv : ProcEnv :=
  { chatModelVar := some "envModel"
    mcpUrlVar := none
    openSource := .ok ()
    readPrompt := .ok "hi"
    ext := happyEnv }

/-- C6: `argparse` resolution with `default=os.getenv(...)`: the model name is
the explicit `--model` value when given, else the `CHAT_MODEL` variable (which
is itself `none`, i.e. absent/empty, when unset); the tool-server URL is the
explicit `--mcp-url` value when given, else the `MCP_URL` variable, else
absent; and the process actually prints (hence uses) exactly these resolved
values. -/
theorem config_resolution_precedence (penv : ProcEnv) (args : Args)
    (p : String) (hp : penv.openPrompt = .ok p) :
    (∀ v : String, args.modelFlag = some v →
        argDefault args.modelFlag penv.chatModelVar = some v)
    ∧ (args.modelFlag = none →
        argDefault args.modelFlag penv.chatModelVar = penv.chatModelVar)
    ∧ (∀ v : String, args.mcpUrlFlag = some v →
        argDefault args.mcpUrlFlag penv.mcpUrlVar = some v)
    ∧ (args.mcpUrlFlag = none →
        argDefault args.mcpUrlFlag penv.mcpUrlVar = penv.mcpUrlVar)
    ∧ Event.print ("Using model: "
        ++ pyFormat (argDefault args.modelFlag penv.chatModelVar))
        ∈ (process penv args).1
    ∧ Event.print ("Using MCP URL: "
        ++ pyFormat (argDefault args.mcpUrlFlag penv.mcpUrlVar))
        ∈ (process penv args).1 := by
  obtain ⟨hs, hr⟩ := openPrompt_eq_ok penv p hp
  refine ⟨?_, ?_, ?_, ?_, ?_, ?_⟩
  · intro v hv; simp [argDefault, hv]
  · intro hv; simp [argDefault, hv]
  · intro v hv; simp [argDefault, hv]
  · intro hv; simp [argDefault, hv]
  · simp [process, hs, hr]
  · simp [process, hs, hr]

theorem config_resolution_precedence_witness :
    ((∀ v : String, (Args.mk (some "flagModel") none).modelFlag = some v →
        argDefault (Args.mk (some "flagModel") none).modelFlag
          happyPenv.chatModelVar = some v)
    ∧ ((Args.mk (some "flagModel") none).modelFlag = none →
        argDefault (Args.mk (some "flagModel") none).modelFlag
          happyPenv.chatModelVar = happyPenv.chatModelVar)
    ∧ (∀ v : String, (Args.mk (some "flagModel") none).mcpUrlFlag = some v →
        argDefault (Args.mk (some "flagModel") none).mcpUrlFlag
          happyPenv.mcpUrlVar = some v)
    ∧ ((Args.mk (some "flagModel") none).mcpUrlFlag = none →
        argDefault (Args.mk (some "flagModel") none).mcpUrlFlag
          happyPenv.mcpUrlVar = happyPenv.mcpUrlVar)
    ∧ Event.print ("Using model: "
        ++ pyFormat (argDefault (Args.mk (some "flagModel") none).modelFlag
             happyPenv.chatModelVar))
        ∈ (process happyPenv (Args.mk (some "flagModel") none)).1
    ∧ Event.print ("Using MCP URL: "
        ++ pyFormat (argDefault (Args.mk (some "flagModel") none).mcpUrlFlag
             happyPenv.mcpUrlVar))
        ∈ (process happyPenv (Args.mk (some "flagModel") none)).1) :=
  config_resolution_precedence happyPenv (Args.mk (some "flagModel") none)
    "hi" rfl

/-- External-call outcomes for the C7 scenario: no connection is ever made,
and the agent run returns `out` as its final output. -/
def helloExt (out : String) : Env :=
  { connect := .ok ()
    listToolsResult := .ok []
    agentResult := .ok out }

/-- Process environment for the C7 scenario: prompt file containing "Hello",
no relevant environment variables. -/
def helloPenv (out : String) : ProcEnv :=
  { chatModelVar := none
    mcpUrlVar := none
    openSource := .ok ()
    readPrompt := .ok "Hello"
    ext := helloExt out }

/-- Command line for the C7 scenario: `--model test-model`, empty
`--mcp-url` (no tool server). -/
def helloArgs : Args := { modelFlag := some "test-model", mcpUrlFlag := some "" }

/-- C7 counterexample: in the claimed scenario (prompt "Hello", model
"test-model", no tool-server URL) the full trace is computed explicitly; the
URL diagnostic line is `Using MCP URL: ` — the script never prints any line
labelled `Using tool URL: `, so the claim's exact line does not occur. -/
theorem hello_output_lacks_tool_url_line :
    (process (helloPenv "agent says hi") helloArgs).1 =
      [Event.initTelemetry,
       Event.print "Prompt: Hello",
       Event.print "Using model: test-model",
       Event.print "Using MCP URL: ",
       Event.runnerRun (some "test-model") "Hello" [] "envoy-ai-gateway",
       Event.print "agent says hi"]
    ∧ Event.print "Using tool URL: "
        ∉ (process (helloPenv "agent says hi") helloArgs).1 := by
  constructor
  · decide
  · decide

/-- C7 amended: same scenario, but the URL diagnostic line is labelled
`Using MCP URL: ` (empty rendering for the empty URL); the output is exactly
`Prompt: Hello`, `Using model: test-model`, `Using MCP URL: `, then the
agent invocation followed by its final output, in that order. -/
theorem hello_output_lines_in_order (out : String) :
    (process (helloPenv out) helloArgs).1 =
      [Event.initTelemetry,
       Event.print "Prompt: Hello",
       Event.print "Using model: test-model",
       Event.print "Using MCP URL: ",
       Event.runnerRun (some "test-model") "Hello" [] "envoy-ai-gateway",
       Event.print out] := by
  rfl

/-- Process environment whose prompt source cannot be opened:
`argparse.FileType('r')` fails during `parse_args` (the read stage is never
reached; its value is irrelevant). -/
def openFailPenv : ProcEnv :=
  { chatModelVar := some "gpt"
    mcpUrlVar := none
    openSource := .error { msg := "no such file" }
    readPrompt := .ok "unused"
    ext := happyEnv }

/-- Process environment whose prompt source opens but whose
`args.prompt.read()` fails (e.g. a `UnicodeDecodeError` on a non-UTF-8
file). -/
def readFailPenv : ProcEnv :=
  { chatModelVar := some "gpt"
    mcpUrlVar := none
    openSource := .ok ()
    readPrompt := .error { msg := "invalid utf-8" }
    ext := happyEnv }

/-- C8 counterexample: two fatal-error kinds get distinct exit codes — an
unopenable prompt source exits with `argparse`'s status 2, while a
tool-server connection failure exits with status 1, refuting "no distinct
exit codes are assigned per error kind". -/
theorem distinct_exit_codes_for_error_kinds :
    (process openFailPenv noFlags).2 = 2
    ∧ (process connFailPenv noFlags).2 = 1
    ∧ (2 : Nat) ≠ 1 := by
  refine ⟨rfl, rfl, by decide⟩

/-- C8 amended: exit status 0 exactly when the prompt is obtained and the
run completes successfully; a prompt source that `argparse.FileType('r')`
cannot open exits with `argparse`'s status 2; a failure of
`args.prompt.read()` after a successful open, like every other fatal error
(connection, listing, agent/model failure), is an uncaught exception exiting
with status 1 — all failures are non-zero, but unopenable sources are
distinguished from all run-time failures by the parser's own exit code. -/
theorem exit_code_classification (penv : ProcEnv) (args : Args) :
    ((process penv args).2 = 0 ↔
      ∃ p, penv.openPrompt = .ok p ∧
        (main penv.ext p (argDefault args.modelFlag penv.chatModelVar)
          (argDefault args.mcpUrlFlag penv.mcpUrlVar)).2 = .ok ())
    ∧ (∀ e, penv.openSource = .error e → (process penv args).2 = 2)
    ∧ (∀ e, penv.openSource = .ok () → penv.readPrompt = .error e →
        (process penv args).2 = 1)
    ∧ (∀ p e, penv.openPrompt = .ok p →
        (main penv.ext p (argDefault args.modelFlag penv.chatModelVar)
          (argDefault args.mcpUrlFlag penv.mcpUrlVar)).2 = .error e →
        (process penv args).2 = 1) := by
  cases hs : penv.openSource with
  | error e0 =>
    refine ⟨?_, ?_, ?_, ?_⟩
    · simp [process, hs, ProcEnv.openPrompt]
    · intro e he; simp [process, hs]
    · intro e hse hre; simp at hse
    · intro p e hpe hme; simp [ProcEnv.openPrompt, hs] at hpe
  | ok u =>
    cases u
    cases hr : penv.readPrompt with
    | error e0 =>
      refine ⟨?_, ?_, ?_, ?_⟩
      · simp [process, hs, hr, ProcEnv.openPrompt]
      · intro e he; simp at he
      · intro e hse hre; simp [process, hs, hr]
      · intro p e hpe hme; simp [ProcEnv.openPrompt, hs, hr] at hpe
    | ok p0 =>
      refine ⟨?_, ?_, ?_, ?_⟩
      · cases hm : (main penv.ext p0
            (argDefault args.modelFlag penv.chatModelVar)
            (argDefault args.mcpUrlFlag penv.mcpUrlVar)).2 with
        | ok u2 => simp [process, hs, hr, hm, exitOf, ProcEnv.openPrompt]
        | error e => simp [process, hs, hr, hm, exitOf, ProcEnv.openPrompt]
      · intro e he; simp at he
      · intro e hse hre; simp at hre
      · intro p e hpe hme
        simp [ProcEnv.openPrompt, hs, hr] at hpe
        subst hpe
        simp [process, hs, hr, hme, exitOf]

theorem exit_code_classification_witness :
    (((process readFailPenv noFlags).2 = 0 ↔
      ∃ p, readFailPenv.openPrompt = .ok p ∧
        (main readFailPenv.ext p
          (argDefault noFlags.modelFlag readFailPenv.chatModelVar)
          (argDefault noFlags.mcpUrlFlag readFailPenv.mcpUrlVar)).2 = .ok ())
    ∧ (∀ e, readFailPenv.openSource = .error e →
        (process readFailPenv noFlags).2 = 2)
    ∧ (∀ e, readFailPenv.openSource = .ok () →
        readFailPenv.readPrompt = .error e →
        (process readFailPenv noFlags).2 = 1)
    ∧ (∀ p e, readFailPenv.openPrompt = .ok p →
        (main readFailPenv.ext p
          (argDefault noFlags.modelFlag readFailPenv.chatModelVar)
          (argDefault noFlags.mcpUrlFlag readFailPenv.mcpUrlVar)).2 = .error e →
        (process readFailPenv noFlags).2 = 1)) :=
  exit_code_classification readFailPenv noFlags

/-- External-call outcomes where the connection opens but tool listing fails. -/
def listFailEnv : Env :=
  { connect := .ok ()
    listToolsResult := .error { msg := "listing failed" }
    agentResult := .ok "unused" }

/-- C9: if the tool-listing request fails after the connection was opened,
the listing error is the run's outcome, the agent is never invoked, and the
connection is still released exactly once. -/
theorem list_failure_propagates_before_agent_run (env : Env) (p : String)
    (m : Option String) (url : String) (e : Err) (hurl : url ≠ "")
    (hconn : env.connect = .ok ())
    (hlist : env.listToolsResult = .error e) :
    (main env p m (some url)).2 = .error e
    ∧ agentRuns (main env p m (some url)).1 = 0
    ∧ releaseCount (main env p m (some url)).1 = 1 := by
  simp [main, hurl, hconn, hlist, agentRuns, releaseCount, countBy,
    isRunnerRun, isRelease]

theorem list_failure_propagates_before_agent_run_witness :
    (main listFailEnv "hi" (some "gpt") (some "http://mcp")).2
        = .error { msg := "listing failed" }
    ∧ agentRuns (main listFailEnv "hi" (some "gpt") (some "http://mcp")).1 = 0
    ∧ releaseCount (main listFailEnv "hi" (some "gpt") (some "http://mcp")).1 = 1 :=
  list_failure_propagates_before_agent_run listFailEnv "hi" (some "gpt")
    "http://mcp" { msg := "listing failed" } (by decide) rfl rfl

/-- Process environment with neither `CHAT_MODEL` nor `MCP_URL` set. -/
def barePenv : ProcEnv :=
  { chatModelVar := none
    mcpUrlVar := none
    openSource := .ok ()
    readPrompt := .ok "hi"
    ext := happyEnv }

/-- C10: the resolved model name is never validated — with no `--model` flag
and `CHAT_MODEL` unset, the resolved name is `none` (Python `None`) and is
passed unchanged to `Runner.run`, which is still invoked rather than failing
early. -/
theorem model_name_unvalidated (penv : ProcEnv) (args : Args) (p : String)
    (hm : args.modelFlag = none) (hcm : penv.chatModelVar = none)
    (hp : penv.openPrompt = .ok p)
    (hu : argDefault args.mcpUrlFlag penv.mcpUrlVar = none) :
    Event.runnerRun none p [] "envoy-ai-gateway" ∈ (process penv args).1 := by
  obtain ⟨hs, hr⟩ := openPrompt_eq_ok penv p hp
  have hmem := run_agent_mem_runnerRun penv.ext p none []
  have hmodel : argDefault args.modelFlag penv.chatModelVar = none := by
    simp [argDefault, hm, hcm]
  simp [process, hs, hr, hmodel, hu, main_none_eq]
  exact hmem

theorem model_name_unvalidated_witness :
    Event.runnerRun none "hi" [] "envoy-ai-gateway"
        ∈ (process barePenv noFlags).1 :=
  model_name_unvalidated barePenv noFlags "hi" rfl rfl rfl rfl

end Tracing
